import Mathlib

/-!
Shallow embedding of the asynchronous-transfer core of python-libusb1
(src/usb1/__init__.py and src/usb1/_libusb1.py), together with theorems
settling the frozen behavioural claims about it.

Modelling conventions:
* Python byte buffers are `List Nat` (one Nat per byte).
* Python exceptions become an explicit `PyErr` value; a function that can
  raise returns the error alongside the state it had mutated so far, which
  mirrors CPython's in-place mutation semantics.
* The native libusb driver is external: its return codes and reported
  timeouts are inputs to the modelled functions, and the calls made into it
  are recorded in explicit traces.
* Python floats used for timeouts are modelled as exact rationals; the
  truthiness/branching logic under study does not depend on rounding.
-/

namespace USB1

/-- Errors observable from the modelled Python code: ValueError, TypeError,
KeyError, DoomedTransferError, and the USBError hierarchy (one class per
negative libusb status code, here carried as the code itself). -/
inductive PyErr where
  | valueError (msg : String)
  | typeError (msg : String)
  | keyError
  | doomedTransferError (msg : String)
  | usbError (code : Int)
deriving Repr, DecidableEq

/-- libusb status code LIBUSB_ERROR_NOT_FOUND (raised as USBErrorNotFound). -/
def LIBUSB_ERROR_NOT_FOUND : Int := -5

/-- libusb status code LIBUSB_ERROR_NO_MEM (raised as USBErrorNoMem). -/
def LIBUSB_ERROR_NO_MEM : Int := -11

/-- libusb transfer type codes, as in _libusb1.py. -/
def LIBUSB_TRANSFER_TYPE_CONTROL : Nat := 0

def LIBUSB_TRANSFER_TYPE_ISOCHRONOUS : Nat := 1

def LIBUSB_TRANSFER_TYPE_BULK : Nat := 2

def LIBUSB_TRANSFER_TYPE_INTERRUPT : Nat := 3

/-- libusb request-type bits used by the control-transfer scenario. -/
def LIBUSB_TYPE_VENDOR : Nat := 0x40

/-- libusb endpoint direction bit: host-to-device. -/
def LIBUSB_ENDPOINT_OUT : Nat := 0x00

/-- Size of the control setup header, sizeof(libusb_control_setup) = 8. -/
def CONTROL_SETUP_SIZE : Nat := 8

/-- CONTROL_SETUP from usb1/__init__.py: 8 zero bytes. -/
def CONTROL_SETUP : List Nat := List.replicate CONTROL_SETUP_SIZE 0

/-- Argument accepted wherever the source takes `buffer_or_len`: either an
int length or a bytes-like object. -/
def BufferOrLen : Type := Nat ⊕ List Nat

/-- create_binary_buffer from usb1/__init__.py: an int becomes that many zero
bytes (bytearray semantics), bytes are used as the initialiser. The function
returns both a ctypes buffer and a python buffer sharing the same content;
here a single byte list stands for both. -/
def create_binary_buffer : BufferOrLen → List Nat
  | Sum.inl n => List.replicate n 0
  | Sum.inr b => b

/-- One libusb_iso_packet_descriptor slot. -/
structure IsoPacketDesc where
  length : Nat
  actual_length : Nat
  status : Nat
deriving Repr, DecidableEq

/-- The fields of struct libusb_transfer that the modelled code reads or
writes. `iso_packet_desc` is the allocated descriptor array (its list length
is the allocation capacity); `num_iso_packets` is the field set by
libusb_fill_iso_transfer. -/
structure NativeTransfer where
  type : Nat
  endpoint : Nat
  timeout : Nat
  buffer : List Nat
  length : Nat
  num_iso_packets : Nat
  iso_packet_desc : List IsoPacketDesc
  flags : Nat
deriving Repr, DecidableEq

/-- libusb_alloc_transfer(iso_packets): zero-initialised transfer with
iso_packets descriptor slots. -/
def libusb_alloc_transfer (iso_packets : Nat) : NativeTransfer :=
  { type := 0
    endpoint := 0
    timeout := 0
    buffer := []
    length := 0
    num_iso_packets := iso_packets
    iso_packet_desc := List.replicate iso_packets { length := 0, actual_length := 0, status := 0 }
    flags := 0 }

/-- Low and high byte of a 16-bit little-endian field, after the c_uint16
truncation performed by the ctypes struct assignment. -/
def le16lo (v : Nat) : Nat := v % 65536 % 256

/-- High byte of a 16-bit little-endian field. -/
def le16hi (v : Nat) : Nat := v % 65536 / 256

/-- libusb_fill_control_setup from _libusb1.py: overwrite the first 8 bytes
of the buffer with the packed libusb_control_setup struct. The wValue,
wIndex and wLength fields are stored little-endian (libusb_cpu_to_le16
composed with the memory layout of c_uint16 yields little-endian bytes on
every host). -/
def libusb_fill_control_setup
    (buf : List Nat) (bmRequestType bRequest wValue wIndex wLength : Nat) : List Nat :=
  [bmRequestType % 256, bRequest % 256,
   le16lo wValue, le16hi wValue,
   le16lo wIndex, le16hi wIndex,
   le16lo wLength, le16hi wLength] ++ buf.drop CONTROL_SETUP_SIZE

/-- libusb_fill_control_transfer from _libusb1.py (buffer always non-None at
the call site in setControl): length is read back from the setup header's
little-endian wLength field. -/
def libusb_fill_control_transfer
    (t : NativeTransfer) (buffer : List Nat) (timeout : Nat) : NativeTransfer :=
  { t with
      endpoint := 0
      type := LIBUSB_TRANSFER_TYPE_CONTROL
      timeout := timeout
      buffer := buffer
      length := CONTROL_SETUP_SIZE + (buffer.getD 6 0 + 256 * buffer.getD 7 0) }

/-- libusb_fill_bulk_transfer from _libusb1.py. -/
def libusb_fill_bulk_transfer
    (t : NativeTransfer) (endpoint : Nat) (buffer : List Nat) (length : Nat)
    (timeout : Nat) : NativeTransfer :=
  { t with
      endpoint := endpoint
      type := LIBUSB_TRANSFER_TYPE_BULK
      timeout := timeout
      buffer := buffer
      length := length }

/-- libusb_fill_interrupt_transfer from _libusb1.py. -/
def libusb_fill_interrupt_transfer
    (t : NativeTransfer) (endpoint : Nat) (buffer : List Nat) (length : Nat)
    (timeout : Nat) : NativeTransfer :=
  { t with
      endpoint := endpoint
      type := LIBUSB_TRANSFER_TYPE_INTERRUPT
      timeout := timeout
      buffer := buffer
      length := length }

/-- libusb_fill_iso_transfer from _libusb1.py. -/
def libusb_fill_iso_transfer
    (t : NativeTransfer) (endpoint : Nat) (buffer : List Nat) (length : Nat)
    (num_iso_packets : Nat) (timeout : Nat) : NativeTransfer :=
  { t with
      endpoint := endpoint
      type := LIBUSB_TRANSFER_TYPE_ISOCHRONOUS
      timeout := timeout
      buffer := buffer
      length := length
      num_iso_packets := num_iso_packets }

/-- get_iso_packet_list from _libusb1.py: the first num_iso_packets slots of
the allocated descriptor array. -/
def get_iso_packet_list (t : NativeTransfer) : List IsoPacketDesc :=
  t.iso_packet_desc.take t.num_iso_packets

/-- Python-level state of one USBTransfer instance. `addr` is the address of
the native descriptor (`addressof(transfer.contents)`), the key used by the
process-wide submitted registry. `num_iso_packets` is the allocation
capacity remembered by __init__. `inited` models the private
__initialized flag, `doomed` the private __doomed flag, and
`transfer_py_buffer` the private __transfer_py_buffer view. The callback
and user_data objects are opaque, so they are modelled as optional tags. -/
structure USBTransfer where
  addr : Nat
  num_iso_packets : Nat
  transfer : NativeTransfer
  inited : Bool
  doomed : Bool
  transfer_py_buffer : List Nat
  user_data : Option Nat
  callback : Option Nat
deriving Repr, DecidableEq

/-- Shared mutable state the transfer machinery works against: the
process-wide __submitted_dict (a strong-reference map keyed by native
descriptor address; only the key set matters here) and the owning device
handle's in-flight set (also keyed by address, standing for the strong
references the set holds). -/
structure UsbEnv where
  submitted_dict : List Nat
  inflight : List Nat
deriving Repr, DecidableEq

/-- USBTransfer.isSubmitted: membership of the native descriptor address in
the class-wide submitted dictionary. -/
def USBTransfer.isSubmitted (t : USBTransfer) (env : UsbEnv) : Bool :=
  env.submitted_dict.contains t.addr

/-- Result of a configuration method: the error raised (none on success) and
the transfer state at the moment the method returned or raised. Returning
the state together with the error mirrors CPython's in-place mutation: a
method that raises after mutating leaves the mutation behind. -/
structure SetterResult where
  err : Option PyErr
  t : USBTransfer
deriving Repr, DecidableEq

/-- USBTransfer.setControl. The buffer is CONTROL_SETUP ++ payload (or
length + 8 zero bytes for the int variant), then libusb_fill_control_setup
writes the 8-byte header in place; __transfer_py_buffer is the memoryview
of everything past the header. -/
def USBTransfer.setControl
    (t : USBTransfer) (env : UsbEnv)
    (request_type request value index : Nat) (buffer_or_len : BufferOrLen)
    (callback : Option Nat) (user_data : Option Nat) (timeout : Nat) : SetterResult :=
  if t.isSubmitted env then
    { err := some (PyErr.valueError "Cannot alter a submitted transfer"), t := t }
  else if t.doomed then
    { err := some (PyErr.doomedTransferError "Cannot reuse a doomed transfer"), t := t }
  else
    let length : Nat :=
      match buffer_or_len with
      | Sum.inl n => n
      | Sum.inr b => b.length
    let string_buffer : List Nat :=
      match buffer_or_len with
      | Sum.inl n => create_binary_buffer (Sum.inl (n + CONTROL_SETUP_SIZE))
      | Sum.inr b => create_binary_buffer (Sum.inr (CONTROL_SETUP ++ b))
    let string_buffer :=
      libusb_fill_control_setup string_buffer request_type request value index length
    let transfer := libusb_fill_control_transfer t.transfer string_buffer timeout
    { err := none
      t := { t with
              inited := true
              transfer := transfer
              transfer_py_buffer := string_buffer.drop CONTROL_SETUP_SIZE
              user_data := user_data
              callback := callback } }

/-- USBTransfer.setBulk. -/
def USBTransfer.setBulk
    (t : USBTransfer) (env : UsbEnv)
    (endpoint : Nat) (buffer_or_len : BufferOrLen)
    (callback : Option Nat) (user_data : Option Nat) (timeout : Nat) : SetterResult :=
  if t.isSubmitted env then
    { err := some (PyErr.valueError "Cannot alter a submitted transfer"), t := t }
  else if t.doomed then
    { err := some (PyErr.doomedTransferError "Cannot reuse a doomed transfer"), t := t }
  else
    let string_buffer := create_binary_buffer buffer_or_len
    let transfer :=
      libusb_fill_bulk_transfer t.transfer endpoint string_buffer string_buffer.length timeout
    { err := none
      t := { t with
              inited := true
              transfer := transfer
              transfer_py_buffer := string_buffer
              user_data := user_data
              callback := callback } }

/-- USBTransfer.setInterrupt. -/
def USBTransfer.setInterrupt
    (t : USBTransfer) (env : UsbEnv)
    (endpoint : Nat) (buffer_or_len : BufferOrLen)
    (callback : Option Nat) (user_data : Option Nat) (timeout : Nat) : SetterResult :=
  if t.isSubmitted env then
    { err := some (PyErr.valueError "Cannot alter a submitted transfer"), t := t }
  else if t.doomed then
    { err := some (PyErr.doomedTransferError "Cannot reuse a doomed transfer"), t := t }
  else
    let string_buffer := create_binary_buffer buffer_or_len
    let transfer :=
      libusb_fill_interrupt_transfer t.transfer endpoint string_buffer string_buffer.length timeout
    { err := none
      t := { t with
              inited := true
              transfer := transfer
              transfer_py_buffer := string_buffer
              user_data := user_data
              callback := callback } }

/-- Loop at the end of USBTransfer.setIsochronous: for each (length, slot)
pair of zip(iso_transfer_length_list, get_iso_packet_list(...)), raise
ValueError on a non-positive length (leaving earlier slots updated, the
rest untouched), otherwise store the length in the slot. -/
def assignIsoLengths : List IsoPacketDesc → List Int → Option PyErr × List IsoPacketDesc
  | slots, [] => (none, slots)
  | [], _ :: _ => (none, [])
  | slot :: rest, l :: ls =>
    if l ≤ 0 then
      (some (PyErr.valueError "Negative/null length transfers are not possible."), slot :: rest)
    else
      let out := assignIsoLengths rest ls
      (out.1, { slot with length := l.toNat } :: out.2)

/-- USBTransfer.setIsochronous. The explicit per-packet length list is a
list of Python ints, hence `List Int`; when omitted, divmod spreads the
buffer length over the allocated slot count. -/
def USBTransfer.setIsochronous
    (t : USBTransfer) (env : UsbEnv)
    (endpoint : Nat) (buffer_or_len : BufferOrLen)
    (callback : Option Nat) (user_data : Option Nat) (timeout : Nat)
    (iso_transfer_length_list : Option (List Int)) : SetterResult :=
  if t.isSubmitted env then
    { err := some (PyErr.valueError "Cannot alter a submitted transfer"), t := t }
  else if t.num_iso_packets = 0 then
    { err := some (PyErr.typeError "This transfer cannot be used for isochronous I/O."), t := t }
  else if t.doomed then
    { err := some (PyErr.doomedTransferError "Cannot reuse a doomed transfer"), t := t }
  else
    let string_buffer := create_binary_buffer buffer_or_len
    let buffer_length := string_buffer.length
    let resolved : Option (List Int) :=
      match iso_transfer_length_list with
      | none =>
        if buffer_length % t.num_iso_packets ≠ 0 then none
        else some (List.replicate t.num_iso_packets ((buffer_length / t.num_iso_packets : Nat) : Int))
      | some l => some l
    match resolved with
    | none =>
      { err := some (PyErr.valueError
          "Buffer size cannot be evenly distributed among transfers"), t := t }
    | some lengths =>
      let configured_iso_packets := lengths.length
      if configured_iso_packets > t.num_iso_packets then
        { err := some (PyErr.valueError "Too many ISO transfer lengths"), t := t }
      else if lengths.sum > (buffer_length : Int) then
        { err := some (PyErr.valueError "ISO transfers too long"), t := t }
      else
        let transfer :=
          libusb_fill_iso_transfer t.transfer endpoint string_buffer buffer_length
            configured_iso_packets timeout
        let t1 := { t with
                      inited := false
                      transfer := transfer
                      transfer_py_buffer := string_buffer
                      user_data := user_data }
        let out := assignIsoLengths (get_iso_packet_list transfer) lengths
        let transfer2 := { transfer with
                            iso_packet_desc :=
                              out.2 ++ transfer.iso_packet_desc.drop configured_iso_packets }
        match out.1 with
        | some e => { err := some e, t := { t1 with transfer := transfer2 } }
        | none =>
          { err := none
            t := { t1 with transfer := transfer2, callback := callback, inited := true } }

/-- USBTransfer.getBuffer: returns the python-side buffer view. -/
def USBTransfer.getBuffer (t : USBTransfer) : List Nat :=
  t.transfer_py_buffer

/-- USBTransfer.setBuffer: rejected on submitted transfers and on control
transfers; on isochronous transfers only a same-length replacement is
accepted; otherwise the buffer and native length are replaced. -/
def USBTransfer.setBuffer
    (t : USBTransfer) (env : UsbEnv) (buffer_or_len : BufferOrLen) : SetterResult :=
  if t.isSubmitted env then
    { err := some (PyErr.valueError "Cannot alter a submitted transfer"), t := t }
  else if t.transfer.type = LIBUSB_TRANSFER_TYPE_CONTROL then
    { err := some (PyErr.valueError "To alter control transfer buffer, use setControl"), t := t }
  else
    let buff := create_binary_buffer buffer_or_len
    if t.transfer.type = LIBUSB_TRANSFER_TYPE_ISOCHRONOUS ∧ buff.length ≠ t.transfer.length then
      { err := some (PyErr.valueError
          "To alter isochronous transfer buffer length, use setIsochronous"), t := t }
    else
      { err := none
        t := { t with
                transfer_py_buffer := buff
                transfer := { t.transfer with buffer := buff, length := buff.length } } }

/-- Observable steps taken by USBTransfer.submit, in program order:
__before_submit adds the transfer to the device handle's in-flight set, the
registry entry is stored under the descriptor address, the native
libusb_submit_transfer call is made, and on native failure
__after_completion removes the in-flight entry and the registry entry is
popped. -/
inductive SubmitEvent where
  | inflightAdd (addr : Nat)
  | registryAdd (addr : Nat)
  | nativeSubmit (addr : Nat)
  | inflightRemove (addr : Nat)
  | registryRemove (addr : Nat)
deriving Repr, DecidableEq

/-- Outcome of USBTransfer.submit: the error raised (none on success), the
resulting shared state, and the ordered trace of observable steps. -/
structure SubmitResult where
  err : Option PyErr
  env : UsbEnv
  trace : List SubmitEvent
deriving Repr, DecidableEq

/-- USBTransfer.submit. `native_result` is the status code returned by the
external libusb_submit_transfer call (0 on success). -/
def USBTransfer.submit
    (t : USBTransfer) (env : UsbEnv) (native_result : Int) : SubmitResult :=
  if t.isSubmitted env then
    { err := some (PyErr.valueError "Cannot submit a submitted transfer")
      env := env, trace := [] }
  else if ¬ t.inited then
    { err := some (PyErr.valueError "Cannot submit a transfer until it has been initialized")
      env := env, trace := [] }
  else if t.doomed then
    { err := some (PyErr.doomedTransferError "Cannot submit doomed transfer")
      env := env, trace := [] }
  else
    let env1 : UsbEnv := { env with inflight := t.addr :: env.inflight }
    let env2 : UsbEnv := { env1 with submitted_dict := t.addr :: env1.submitted_dict }
    let trace : List SubmitEvent :=
      [SubmitEvent.inflightAdd t.addr, SubmitEvent.registryAdd t.addr,
       SubmitEvent.nativeSubmit t.addr]
    if native_result ≠ 0 then
      let env3 : UsbEnv := { env2 with inflight := env2.inflight.erase t.addr }
      let env4 : UsbEnv := { env3 with submitted_dict := env3.submitted_dict.erase t.addr }
      { err := some (PyErr.usbError native_result)
        env := env4
        trace := trace ++ [SubmitEvent.inflightRemove t.addr, SubmitEvent.registryRemove t.addr] }
    else
      { err := none, env := env2, trace := trace }

/-- Outcome of USBTransfer.cancel: the error raised, if any, and whether the
native libusb_cancel_transfer entry point was invoked. -/
structure CancelResult where
  err : Option PyErr
  nativeCancelCalled : Bool
deriving Repr, DecidableEq

/-- USBTransfer.cancel: a transfer that is not submitted raises
USBErrorNotFound without touching the native layer (workaround for a
libusb segfault on double cancel); otherwise libusb_cancel_transfer is
called and mayRaiseUSBError maps a negative status to a raised error. -/
def USBTransfer.cancel
    (t : USBTransfer) (env : UsbEnv) (native_result : Int) : CancelResult :=
  if ¬ t.isSubmitted env then
    { err := some (PyErr.usbError LIBUSB_ERROR_NOT_FOUND), nativeCancelCalled := false }
  else
    { err := if native_result < 0 then some (PyErr.usbError native_result) else none
      nativeCancelCalled := true }

/-- Native calls made while constructing a transfer object. -/
inductive NativeCall where
  | allocTransfer (iso_packets : Int)
deriving Repr, DecidableEq

/-- Outcome of USBTransfer.__init__: the error raised (none on success), the
constructed object, and the trace of native calls made. -/
structure InitResult where
  err : Option PyErr
  t : Option USBTransfer
  trace : List NativeCall
deriving Repr, DecidableEq

/-- LIBUSB_TRANSFER_SHORT_NOT_OK transfer flag. -/
def LIBUSB_TRANSFER_SHORT_NOT_OK : Nat := 1

/-- LIBUSB_TRANSFER_ADD_ZERO_PACKET transfer flag. -/
def LIBUSB_TRANSFER_ADD_ZERO_PACKET : Nat := 8

/-- Set or clear one flag bit, as setShortIsError / setAddZeroPacket do. -/
def setFlagBit (flags mask : Nat) (state : Bool) : Nat :=
  if state then flags ||| mask else flags - (flags &&& mask)

/-- USBTransfer.__init__: a negative iso_packets count raises ValueError
before libusb_alloc_transfer is reached; a failed allocation (modelled by
`alloc_ok = false`) raises USBErrorNoMem after it; otherwise the fresh
object starts uninitialised and with its two flag bits set from the
constructor arguments. `addr` is the address the allocation came back at. -/
def USBTransfer.construct
    (addr : Nat) (iso_packets : Int) (alloc_ok : Bool)
    (short_is_error add_zero_packet : Bool) : InitResult :=
  if iso_packets < 0 then
    { err := some (PyErr.valueError "Cannot request a negative number of iso packets.")
      t := none, trace := [] }
  else
    let trace := [NativeCall.allocTransfer iso_packets]
    if ¬ alloc_ok then
      { err := some (PyErr.usbError LIBUSB_ERROR_NO_MEM), t := none, trace := trace }
    else
      let nt := libusb_alloc_transfer iso_packets.toNat
      let nt := { nt with flags := setFlagBit nt.flags LIBUSB_TRANSFER_SHORT_NOT_OK short_is_error }
      let nt := { nt with flags := setFlagBit nt.flags LIBUSB_TRANSFER_ADD_ZERO_PACKET add_zero_packet }
      { err := none
        t := some
          { addr := addr
            num_iso_packets := iso_packets.toNat
            transfer := nt
            inited := false
            doomed := false
            transfer_py_buffer := []
            user_data := none
            callback := none }
        trace := trace }

/-- USBDeviceHandle.getTransfer: a plain forwarding constructor call. -/
def USBDeviceHandle.getTransfer
    (addr : Nat) (iso_packets : Int) (alloc_ok : Bool)
    (short_is_error add_zero_packet : Bool) : InitResult :=
  USBTransfer.construct addr iso_packets alloc_ok short_is_error add_zero_packet

/-- USBContext.getNextTimeout: native result 0 means no pending timeout
(None), result 1 converts the timeval to seconds, any other result raises.
The float arithmetic of the source is modelled exactly over the rationals. -/
def USBContext.getNextTimeout
    (native_result : Int) (tv_sec tv_usec : Nat) : Except PyErr (Option Rat) :=
  if native_result = 0 then Except.ok none
  else if native_result = 1 then
    Except.ok (some ((tv_sec : Rat) + (tv_usec : Rat) * (1 / 1000000)))
  else Except.error (PyErr.usbError native_result)

/-- Outcome of USBPoller.poll: the event list returned to the caller, whether
context.handleEventsTimeout (the zero-timeout drain) was invoked, and the
timeout value handed to the external poller. -/
structure PollResult where
  result : List (Nat × Nat)
  handleEventsTimeoutCalled : Bool
  usb_timeout : Option Rat
deriving Repr, DecidableEq

/-- USBPoller.poll. `fd_set` is the tracked USB fd set, `next_usb_timeout`
the value context.getNextTimeout returned, `timeout` the caller's argument
(None or a float in seconds), and `event_list` what the external poller
returned. Python truthiness makes both None and 0.0 falsy in the
`elif next_usb_timeout:` test. -/
def USBPoller.poll
    (fd_set : List Nat) (next_usb_timeout : Option Rat) (timeout : Option Rat)
    (event_list : List (Nat × Nat)) : PollResult :=
  let usb_timeout : Option Rat :=
    match timeout with
    | none => next_usb_timeout
    | some tv =>
      if tv < 0 then next_usb_timeout
      else
        match next_usb_timeout with
        | some nv => if nv ≠ 0 then some (min nv tv) else some tv
        | none => some tv
  if event_list ≠ [] then
    let result := event_list.filter (fun p => !(fd_set.contains p.1))
    { result := result
      handleEventsTimeoutCalled := result.length != event_list.length
      usb_timeout := usb_timeout }
  else
    { result := event_list, handleEventsTimeoutCalled := true, usb_timeout := usb_timeout }

/-- Outcome of USBContext.hotplugDeregisterCallback: the error raised, the
hotplug callback dictionary (modelled by its key set) afterwards, and
whether the native libusb_hotplug_deregister_callback call was reached. -/
structure DeregResult where
  err : Option PyErr
  dict : List Nat
  nativeDeregisterCalled : Bool
deriving Repr, DecidableEq

/-- USBContext.hotplugDeregisterCallback: `del self.__hotplug_callback_dict[
handle]` raises KeyError when the handle is absent, in which case the
native deregistration call is never reached; otherwise the entry is
removed and the native call is made. -/
def USBContext.hotplugDeregisterCallback (dict : List Nat) (handle : Nat) : DeregResult :=
  if dict.contains handle then
    { err := none, dict := dict.erase handle, nativeDeregisterCalled := true }
  else
    { err := some PyErr.keyError, dict := dict, nativeDeregisterCalled := false }

/-- Tail of the wrapped_callback closure built by hotplugRegisterCallback:
when the user callback returns a true value, the registration deletes its
own entry from the dictionary before returning to the native layer (the
native layer then drops the registration itself, without a deregister
call). -/
def hotplugWrappedCallbackDict (dict : List Nat) (handle : Nat) (unregister : Bool) : List Nat :=
  if unregister then dict.erase handle else dict

/-- Shared state with nothing submitted and nothing in flight. -/
def envEmpty : UsbEnv := { submitted_dict := [], inflight := [] }

/-- Shared state in which descriptor address 100 is registered as submitted
and in flight. -/
def envSubmitted : UsbEnv := { submitted_dict := [100], inflight := [100] }

/-- Freshly constructed transfer at address 100 with no iso slots, before
any configuration, as USBTransfer.__init__ leaves it. -/
def freshSample : USBTransfer :=
  { addr := 100
    num_iso_packets := 0
    transfer := libusb_alloc_transfer 0
    inited := false
    doomed := false
    transfer_py_buffer := []
    user_data := none
    callback := none }

/-- Fresh transfer allocated with one isochronous slot. -/
def isoCap1Sample : USBTransfer :=
  { freshSample with num_iso_packets := 1, transfer := libusb_alloc_transfer 1 }

/-- Fresh transfer allocated with two isochronous slots. -/
def isoCap2Sample : USBTransfer :=
  { freshSample with num_iso_packets := 2, transfer := libusb_alloc_transfer 2 }

/-- Transfer configured for bulk I/O on endpoint 2 with payload [1, 2, 3]. -/
def bulkSample : USBTransfer :=
  (freshSample.setBulk envEmpty 2 (Sum.inr [1, 2, 3]) none none 0).t

/-- Transfer configured for control I/O (vendor-out request 5, 3-byte
payload). -/
def controlSample : USBTransfer :=
  (freshSample.setControl envEmpty 64 5 0 0 (Sum.inr [1, 2, 3]) none none 0).t

/-- Claim C9: a transfer that is not in the Submitted state has cancel()
raise the NotFound driver error without the native cancel entry point being
invoked, and the native cancel entry point is invoked exactly when the
transfer is Submitted. -/
theorem C9_cancel_requires_submitted
    (t : USBTransfer) (env : UsbEnv) (native_result : Int) :
    (t.isSubmitted env = false →
      t.cancel env native_result
        = { err := some (PyErr.usbError LIBUSB_ERROR_NOT_FOUND), nativeCancelCalled := false }) ∧
    ((t.cancel env native_result).nativeCancelCalled = true ↔ t.isSubmitted env = true) := by
  unfold USBTransfer.cancel
  by_cases h : t.isSubmitted env
  · simp [h]
  · simp [h]

/-- Witness for C9 at a concrete non-submitted transfer. -/
theorem C9_witness :
    bulkSample.cancel envEmpty 0
      = { err := some (PyErr.usbError LIBUSB_ERROR_NOT_FOUND), nativeCancelCalled := false } :=
  (C9_cancel_requires_submitted bulkSample envEmpty 0).1 (by decide)

/-- Claim C10: requesting a transfer object with a negative isochronous
packet count fails with a local ValueError before any native transfer
descriptor allocation happens (the native-call trace is empty). -/
theorem C10_negative_iso_packets
    (addr : Nat) (iso_packets : Int) (alloc_ok short_is_error add_zero_packet : Bool)
    (h : iso_packets < 0) :
    (USBDeviceHandle.getTransfer addr iso_packets alloc_ok short_is_error add_zero_packet).err
        = some (PyErr.valueError "Cannot request a negative number of iso packets.") ∧
    (USBDeviceHandle.getTransfer addr iso_packets alloc_ok short_is_error add_zero_packet).trace
        = [] ∧
    (USBDeviceHandle.getTransfer addr iso_packets alloc_ok short_is_error add_zero_packet).t
        = none := by
  unfold USBDeviceHandle.getTransfer USBTransfer.construct
  rw [if_pos h]
  exact ⟨rfl, rfl, rfl⟩

/-- Witness for C10 at iso_packets = -1. -/
theorem C10_witness :
    ((-1 : Int) < 0) ∧
    (USBDeviceHandle.getTransfer 0 (-1) true false false).err
        = some (PyErr.valueError "Cannot request a negative number of iso packets.") ∧
    (USBDeviceHandle.getTransfer 0 (-1) true false false).trace = [] :=
  ⟨by decide,
   (C10_negative_iso_packets 0 (-1) true false false (by decide)).1,
   (C10_negative_iso_packets 0 (-1) true false false (by decide)).2.1⟩

/-- Counterexample to claim C8 as stated: after a registration at handle 5
self-deregisters by returning true from its callback, an explicit
hotplugDeregisterCallback on that handle raises KeyError instead of being a
no-op. -/
theorem C8_counterexample :
    hotplugWrappedCallbackDict [5] 5 true = [] ∧
    (USBContext.hotplugDeregisterCallback (hotplugWrappedCallbackDict [5] 5 true) 5).err
      = some PyErr.keyError := by
  decide

/-- Claim C8 amended: hotplugDeregisterCallback on a handle that is not
registered raises KeyError and never reaches the native deregistration
call (it is not an idempotent no-op); on a registered handle it removes
the entry and performs the native call. -/
theorem C8_hotplug_deregister (dict : List Nat) (handle : Nat) :
    (dict.contains handle = false →
      USBContext.hotplugDeregisterCallback dict handle
        = { err := some PyErr.keyError, dict := dict, nativeDeregisterCalled := false }) ∧
    (dict.contains handle = true →
      USBContext.hotplugDeregisterCallback dict handle
        = { err := none, dict := dict.erase handle, nativeDeregisterCalled := true }) := by
  unfold USBContext.hotplugDeregisterCallback
  by_cases h : dict.contains handle
  · simp [h]
  · simp [h]

/-- Witness for the amended C8 at an unknown handle. -/
theorem C8_witness :
    USBContext.hotplugDeregisterCallback [] 7
      = { err := some PyErr.keyError, dict := [], nativeDeregisterCalled := false } :=
  (C8_hotplug_deregister [] 7).1 (by decide)

/-- Claim C2: a configured, non-doomed, non-submitted transfer on submit()
first enters the in-flight set and the submitted registry (both keyed by
the native descriptor address) and only then reaches the native submit
call; a non-zero native status undoes both registrations exactly and
raises the driver error for that status; a zero status leaves the transfer
Submitted and in flight. -/
theorem C2_submit_registrations
    (t : USBTransfer) (env : UsbEnv) (native_result : Int)
    (hsub : t.isSubmitted env = false) (hinit : t.inited = true) (hdoom : t.doomed = false) :
    (t.submit env native_result).trace.take 3
        = [SubmitEvent.inflightAdd t.addr, SubmitEvent.registryAdd t.addr,
           SubmitEvent.nativeSubmit t.addr] ∧
    (native_result ≠ 0 →
      (t.submit env native_result).err = some (PyErr.usbError native_result) ∧
      (t.submit env native_result).env = env) ∧
    (native_result = 0 →
      (t.submit env native_result).err = none ∧
      t.isSubmitted (t.submit env native_result).env = true ∧
      (t.submit env native_result).env.inflight.contains t.addr = true) := by
  unfold USBTransfer.submit
  simp only [USBTransfer.isSubmitted] at hsub ⊢
  simp at hsub
  by_cases hr : native_result = 0
  · simp [hsub, hinit, hdoom, hr]
  · simp [hsub, hinit, hdoom, hr, List.erase_cons_head]

/-- Witness for C2: a concrete configured bulk transfer whose native submit
fails with status -1, leaving the shared state exactly as before. -/
theorem C2_witness :
    bulkSample.isSubmitted envEmpty = false ∧
    (bulkSample.submit envEmpty (-1)).err = some (PyErr.usbError (-1)) ∧
    (bulkSample.submit envEmpty (-1)).env = envEmpty := by
  have h := (C2_submit_registrations bulkSample envEmpty (-1)
    (by decide) (by decide) (by decide)).2.1 (by decide)
  exact ⟨by decide, h.1, h.2⟩

/-- Claim C3: a transfer in the Submitted state has every configuration
method (setControl, setBulk, setInterrupt, setIsochronous, setBuffer) and
submit() raise the invalid-state ValueError while leaving the transfer and
the shared state untouched, whereas cancel() is accepted and proceeds to
the native cancel call. -/
theorem C3_submitted_rejects_mutation
    (t : USBTransfer) (env : UsbEnv)
    (rt rq v i ep tmo : Nat) (bol : BufferOrLen) (cb ud : Option Nat)
    (lens : Option (List Int)) (r : Int)
    (hsub : t.isSubmitted env = true) :
    t.setControl env rt rq v i bol cb ud tmo
        = { err := some (PyErr.valueError "Cannot alter a submitted transfer"), t := t } ∧
    t.setBulk env ep bol cb ud tmo
        = { err := some (PyErr.valueError "Cannot alter a submitted transfer"), t := t } ∧
    t.setInterrupt env ep bol cb ud tmo
        = { err := some (PyErr.valueError "Cannot alter a submitted transfer"), t := t } ∧
    t.setIsochronous env ep bol cb ud tmo lens
        = { err := some (PyErr.valueError "Cannot alter a submitted transfer"), t := t } ∧
    t.setBuffer env bol
        = { err := some (PyErr.valueError "Cannot alter a submitted transfer"), t := t } ∧
    t.submit env r
        = { err := some (PyErr.valueError "Cannot submit a submitted transfer")
            env := env, trace := [] } ∧
    t.cancel env 0 = { err := none, nativeCancelCalled := true } := by
  unfold USBTransfer.setControl USBTransfer.setBulk USBTransfer.setInterrupt
    USBTransfer.setIsochronous USBTransfer.setBuffer USBTransfer.submit USBTransfer.cancel
  simp [hsub]

/-- Witness for C3 at a concrete submitted transfer. -/
theorem C3_witness :
    bulkSample.isSubmitted envSubmitted = true ∧
    (bulkSample.submit envSubmitted 0).err
        = some (PyErr.valueError "Cannot submit a submitted transfer") ∧
    (bulkSample.setBuffer envSubmitted (Sum.inr [9])).t = bulkSample ∧
    (bulkSample.cancel envSubmitted 0).nativeCancelCalled = true := by
  have h := C3_submitted_rejects_mutation bulkSample envSubmitted
    0 0 0 0 0 0 (Sum.inr [9]) none none none 0 (by decide)
  exact ⟨by decide, by rw [h.2.2.2.2.2.1], by rw [h.2.2.2.2.1], by rw [h.2.2.2.2.2.2]⟩

/-- Claim C4: on a non-submitted, non-doomed transfer, setControl with a
byte payload builds a native buffer that is exactly the 8-byte setup header
(request-type byte, request byte, then little-endian 16-bit value, index
and payload length) followed by the payload, and records 8 + payload length
as the native length. -/
theorem C4_control_setup_layout
    (t : USBTransfer) (env : UsbEnv) (rt rq v i tmo : Nat) (payload : List Nat)
    (cb ud : Option Nat)
    (hsub : t.isSubmitted env = false) (hdoom : t.doomed = false)
    (hrt : rt < 256) (hrq : rq < 256) (hv : v < 65536) (hi : i < 65536)
    (hlen : payload.length < 65536) :
    (t.setControl env rt rq v i (Sum.inr payload) cb ud tmo).err = none ∧
    (t.setControl env rt rq v i (Sum.inr payload) cb ud tmo).t.transfer.buffer
        = [rt, rq, v % 256, v / 256, i % 256, i / 256,
           payload.length % 256, payload.length / 256] ++ payload ∧
    (t.setControl env rt rq v i (Sum.inr payload) cb ud tmo).t.transfer.buffer.length
        = CONTROL_SETUP_SIZE + payload.length ∧
    (t.setControl env rt rq v i (Sum.inr payload) cb ud tmo).t.transfer.length
        = CONTROL_SETUP_SIZE + payload.length := by
  unfold USBTransfer.setControl libusb_fill_control_transfer libusb_fill_control_setup
    create_binary_buffer CONTROL_SETUP CONTROL_SETUP_SIZE le16lo le16hi
  simp [hsub, hdoom, Nat.mod_eq_of_lt hrt, Nat.mod_eq_of_lt hrq, Nat.mod_eq_of_lt hv,
    Nat.mod_eq_of_lt hi, Nat.mod_eq_of_lt hlen, Nat.mod_add_div]
  omega

/-- Witness for C4: the vendor-out scenario, request 5, value 0, index 0,
3-byte payload: an 11-byte buffer whose header carries length field 3. -/
theorem C4_witness :
    LIBUSB_TYPE_VENDOR ||| LIBUSB_ENDPOINT_OUT = 64 ∧
    (freshSample.setControl envEmpty 64 5 0 0 (Sum.inr [1, 2, 3]) none none 0).t.transfer.buffer
        = [64, 5, 0, 0, 0, 0, 3, 0, 1, 2, 3] ∧
    (freshSample.setControl envEmpty 64 5 0 0 (Sum.inr [1, 2, 3]) none none 0).t.transfer.buffer.length
        = 11 := by
  have h := C4_control_setup_layout freshSample envEmpty 64 5 0 0 0 [1, 2, 3] none none
    (by decide) (by decide) (by decide) (by decide) (by decide) (by decide) (by decide)
  refine ⟨by decide, ?_, ?_⟩
  · rw [h.2.1]; decide
  · rw [h.2.2.1]; decide

/-- Counterexample to claim C6 as stated: a non-submitted control transfer
(kind ≠ isochronous) has setBuffer fail with ValueError instead of
succeeding, and the readable buffer stays what setControl installed. -/
theorem C6_counterexample :
    controlSample.transfer.type ≠ LIBUSB_TRANSFER_TYPE_ISOCHRONOUS ∧
    controlSample.isSubmitted envEmpty = false ∧
    (controlSample.setBuffer envEmpty (Sum.inr [9])).err
        = some (PyErr.valueError "To alter control transfer buffer, use setControl") ∧
    (controlSample.setBuffer envEmpty (Sum.inr [9])).t.getBuffer ≠ [9] := by
  decide

/-- Claim C6 amended: on a non-submitted transfer whose kind is neither
isochronous nor control, setBuffer succeeds and getBuffer then returns the
byte buffer just installed; control transfers are rejected with a
ValueError pointing at setControl. -/
theorem C6_setBuffer_roundtrip
    (t : USBTransfer) (env : UsbEnv) (b : List Nat)
    (hsub : t.isSubmitted env = false)
    (hiso : t.transfer.type ≠ LIBUSB_TRANSFER_TYPE_ISOCHRONOUS)
    (hctl : t.transfer.type ≠ LIBUSB_TRANSFER_TYPE_CONTROL) :
    (t.setBuffer env (Sum.inr b)).err = none ∧
    (t.setBuffer env (Sum.inr b)).t.getBuffer = b := by
  unfold USBTransfer.setBuffer USBTransfer.getBuffer create_binary_buffer
  simp [hsub, hiso, hctl]

/-- Witness for the amended C6 at a concrete bulk transfer. -/
theorem C6_witness :
    (bulkSample.setBuffer envEmpty (Sum.inr [7, 8])).err = none ∧
    (bulkSample.setBuffer envEmpty (Sum.inr [7, 8])).t.getBuffer = [7, 8] :=
  C6_setBuffer_roundtrip bulkSample envEmpty [7, 8] (by decide) (by decide) (by decide)

/-- Helper for C1: the filtered event list is shorter than the original
exactly when some event's fd belongs to the tracked set. -/
theorem filter_length_ne_iff_mem (fd_set : List Nat) (l : List (Nat × Nat)) :
    (l.filter fun p => !(fd_set.contains p.1)).length ≠ l.length
      ↔ ∃ p ∈ l, p.1 ∈ fd_set := by
  constructor
  · intro h
    have hlt : (l.filter fun p => !(fd_set.contains p.1)).length < l.length :=
      lt_of_le_of_ne (List.length_filter_le _ _) h
    obtain ⟨p, hp, hnp⟩ := List.length_filter_lt_length_iff_exists.1 hlt
    refine ⟨p, hp, ?_⟩
    simpa using hnp
  · intro ⟨p, hp, hmem⟩
    have hlt : (l.filter fun p => !(fd_set.contains p.1)).length < l.length := by
      apply List.length_filter_lt_length_iff_exists.2
      exact ⟨p, hp, by simpa using hmem⟩
    exact Nat.ne_of_lt hlt

/-- Counterexample to claim C1 as stated: the external poller reports one
readiness event whose fd (5) is not in the tracked USB fd set ([3]), yet
poll does not invoke the zero-timeout drain. -/
theorem C1_counterexample :
    (5 ∉ ([3] : List Nat)) ∧
    (USBPoller.poll [3] none none [(5, 1)]).handleEventsTimeoutCalled = false := by
  decide

/-- Claim C1 amended: the zero-timeout drain (handleEventsTimeout) is
invoked exactly when the external poller returned no events at all or
returned at least one event whose fd belongs to the tracked USB fd set; in
particular an event list made only of driver fds still triggers the drain,
while a non-empty list of exclusively non-driver fds does not. -/
theorem C1_drain_condition
    (fd_set : List Nat) (next_usb_timeout timeout : Option Rat)
    (event_list : List (Nat × Nat)) :
    (USBPoller.poll fd_set next_usb_timeout timeout event_list).handleEventsTimeoutCalled = true
      ↔ (event_list = [] ∨ ∃ p ∈ event_list, p.1 ∈ fd_set) := by
  unfold USBPoller.poll
  by_cases he : event_list = []
  · simp [he]
  · simp only [he, if_pos, if_neg, ne_eq, not_false_iff, bne_iff_ne, false_or]
    exact filter_length_ne_iff_mem fd_set event_list

/-- Witness for the amended C1: a poll returning only the driver fd still
triggers the drain. -/
theorem C1_witness :
    (USBPoller.poll [3] none none [(3, 1)]).handleEventsTimeoutCalled = true :=
  (C1_drain_condition [3] none none [(3, 1)]).2 (Or.inr ⟨(3, 1), by decide, by decide⟩)

/-- Counterexample to claim C7 as stated: the driver can report an
already-expired (zero) pending timeout — getNextTimeout then returns 0.0 —
and with a non-negative external timeout requested, poll hands the external
timeout (5) to the poller instead of min(0, 5) = 0. -/
theorem C7_counterexample :
    USBContext.getNextTimeout 1 0 0 = Except.ok (some 0) ∧
    (USBPoller.poll [] (some 0) (some 5) []).usb_timeout = some 5 ∧
    (some (5 : Rat) ≠ some (min (0 : Rat) 5)) := by
  refine ⟨?_, ?_, ?_⟩
  · unfold USBContext.getNextTimeout
    norm_num
  · unfold USBPoller.poll
    norm_num
  · simp [min_def]

/-- Claim C7 amended: the timeout handed to the external poller is the
driver timeout alone when no external timeout was requested (None or
negative); min(driver, external) when an external timeout ≥ 0 was requested
and the driver reports a pending nonzero timeout; and the external timeout
alone when the driver reports no pending timeout or a zero (already
expired) one. -/
theorem C7_effective_timeout
    (fd_set : List Nat) (next_usb_timeout timeout : Option Rat)
    (event_list : List (Nat × Nat)) :
    (timeout = none →
      (USBPoller.poll fd_set next_usb_timeout timeout event_list).usb_timeout
        = next_usb_timeout) ∧
    (∀ tv : Rat, timeout = some tv → tv < 0 →
      (USBPoller.poll fd_set next_usb_timeout timeout event_list).usb_timeout
        = next_usb_timeout) ∧
    (∀ tv nv : Rat, timeout = some tv → 0 ≤ tv → next_usb_timeout = some nv → nv ≠ 0 →
      (USBPoller.poll fd_set next_usb_timeout timeout event_list).usb_timeout
        = some (min nv tv)) ∧
    (∀ tv : Rat, timeout = some tv → 0 ≤ tv →
      (next_usb_timeout = none ∨ next_usb_timeout = some 0) →
      (USBPoller.poll fd_set next_usb_timeout timeout event_list).usb_timeout
        = some tv) := by
  refine ⟨?_, ?_, ?_, ?_⟩
  · intro h
    subst h
    unfold USBPoller.poll
    by_cases he : event_list = [] <;> simp [he]
  · intro tv h hneg
    subst h
    unfold USBPoller.poll
    by_cases he : event_list = [] <;> simp [he, hneg]
  · intro tv nv h hge hnext hnz
    subst h
    subst hnext
    unfold USBPoller.poll
    by_cases he : event_list = [] <;> simp [he, not_lt.2 hge, hnz]
  · intro tv h hge hn
    subst h
    unfold USBPoller.poll
    rcases hn with hn | hn <;> subst hn <;>
      by_cases he : event_list = [] <;> simp [he, not_lt.2 hge]

/-- Witness for the amended C7: external timeout 1 against a pending driver
timeout of 2 yields min(2, 1) = 1. -/
theorem C7_witness :
    (USBPoller.poll [] (some 2) (some 1) []).usb_timeout = some 1 := by
  have h := (C7_effective_timeout [] (some 2) (some 1) []).2.2.1 1 2 rfl
    (by norm_num) rfl (by norm_num)
  rw [h]
  norm_num [min_def]

/-- Helper for C5: assigning a replicate list of one positive length to
exactly as many slots succeeds and stores that length in every slot. -/
theorem assignIsoLengths_replicate (c : Int) (hc : 0 < c) :
    ∀ slots : List IsoPacketDesc,
      assignIsoLengths slots (List.replicate slots.length c)
        = (none, slots.map fun s => { s with length := c.toNat }) := by
  intro slots
  induction slots with
  | nil => rfl
  | cons s rest ih =>
    simp only [List.length_cons, List.replicate_succ, assignIsoLengths, List.map_cons]
    rw [if_neg (by omega)]
    rw [ih]

/-- Counterexample to claim C5 as stated: with n = 1 allocated slot, a
zero-length buffer and no explicit length list, 1 divides 0 evenly, yet the
call fails with ValueError instead of assigning length 0 to the slot. -/
theorem C5_counterexample :
    (0 : Nat) % 1 = 0 ∧
    (isoCap1Sample.setIsochronous envEmpty 1 (Sum.inr []) none none 0 none).err
      = some (PyErr.valueError "Negative/null length transfers are not possible.") := by
  decide

/-- Claim C5 amended: on a transfer with n ≥ 1 allocated iso slots and a
buffer of length L, setIsochronous fails with ValueError when an explicit
length list sums to more than L, or has more than n entries, or when no
list is given and n does not divide L; when no list is given, n divides L
and L > 0, it succeeds and every one of the n slots is assigned length
L / n. (The original claim also promised success for L = 0; the code
rejects zero per-packet lengths.) -/
theorem C5_isochronous_configuration
    (t : USBTransfer) (env : UsbEnv) (ep tmo : Nat) (cb ud : Option Nat) (data : List Nat)
    (hn : 0 < t.num_iso_packets)
    (hcap : t.transfer.iso_packet_desc.length = t.num_iso_packets)
    (hsub : t.isSubmitted env = false) (hdoom : t.doomed = false) :
    (∀ lengths : List Int, lengths.sum > (data.length : Int) →
      ∃ msg, (t.setIsochronous env ep (Sum.inr data) cb ud tmo (some lengths)).err
          = some (PyErr.valueError msg)) ∧
    (∀ lengths : List Int, lengths.length > t.num_iso_packets →
      (t.setIsochronous env ep (Sum.inr data) cb ud tmo (some lengths)).err
        = some (PyErr.valueError "Too many ISO transfer lengths")) ∧
    (data.length % t.num_iso_packets ≠ 0 →
      (t.setIsochronous env ep (Sum.inr data) cb ud tmo none).err
        = some (PyErr.valueError "Buffer size cannot be evenly distributed among transfers")) ∧
    (data.length % t.num_iso_packets = 0 → 0 < data.length →
      (t.setIsochronous env ep (Sum.inr data) cb ud tmo none).err = none ∧
      (get_iso_packet_list
          (t.setIsochronous env ep (Sum.inr data) cb ud tmo none).t.transfer).map
            IsoPacketDesc.length
        = List.replicate t.num_iso_packets (data.length / t.num_iso_packets)) := by
  have hne : t.num_iso_packets ≠ 0 := Nat.pos_iff_ne_zero.1 hn
  refine ⟨?_, ?_, ?_, ?_⟩
  · intro lengths hsum
    unfold USBTransfer.setIsochronous create_binary_buffer
    by_cases hl : lengths.length > t.num_iso_packets
    · exact ⟨"Too many ISO transfer lengths", by simp [hsub, hdoom, hne, hl]⟩
    · exact ⟨"ISO transfers too long", by simp [hsub, hdoom, hne, hl, hsum]⟩
  · intro lengths hl
    unfold USBTransfer.setIsochronous create_binary_buffer
    simp [hsub, hdoom, hne, hl]
  · intro hmod
    unfold USBTransfer.setIsochronous create_binary_buffer
    simp [hsub, hdoom, hne, hmod]
  · intro hmod hpos
    have hdvd : t.num_iso_packets ∣ data.length := Nat.dvd_of_mod_eq_zero hmod
    have hquot : 0 < data.length / t.num_iso_packets :=
      Nat.div_pos (Nat.le_of_dvd hpos hdvd) hn
    have hc : (0 : Int) < ((data.length / t.num_iso_packets : Nat) : Int) := by
      exact_mod_cast hquot
    have hnlt : ¬ ((data.length : Int)
        < (t.num_iso_packets : Int) * ((data.length : Int) / (t.num_iso_packets : Int))) := by
      rw [← Int.natCast_div, ← Nat.cast_mul, Nat.mul_div_cancel' hdvd]
      exact lt_irrefl _
    have hdrop : t.transfer.iso_packet_desc.drop t.num_iso_packets = [] := by
      rw [← hcap]; exact List.drop_length _
    have htake : t.transfer.iso_packet_desc.take t.num_iso_packets
        = t.transfer.iso_packet_desc := by
      apply List.take_of_length_le
      exact le_of_eq hcap
    have hassign2 : assignIsoLengths t.transfer.iso_packet_desc
        (List.replicate t.num_iso_packets ((data.length : Int) / (t.num_iso_packets : Int)))
        = (none, t.transfer.iso_packet_desc.map
            (fun s => { s with length := data.length / t.num_iso_packets })) := by
      rw [← Int.natCast_div]
      have h := assignIsoLengths_replicate
        ((data.length / t.num_iso_packets : Nat) : Int) hc t.transfer.iso_packet_desc
      rw [hcap] at h
      rw [h]
      simp only [Int.toNat_natCast]
    unfold USBTransfer.setIsochronous create_binary_buffer get_iso_packet_list
      libusb_fill_iso_transfer
    simp [hsub, hdoom, hne, hmod, hnlt, htake, hassign2, hdrop,
      List.map_map, Function.comp, List.map_const', hcap, List.take_replicate]
    have hcomp : (IsoPacketDesc.length ∘ fun s : IsoPacketDesc =>
        ({ length := data.length / t.num_iso_packets, actual_length := s.actual_length,
           status := s.status } : IsoPacketDesc))
        = fun _ : IsoPacketDesc => data.length / t.num_iso_packets := rfl
    rw [hcomp, List.map_const', hcap, List.take_replicate, Nat.min_self]

/-- Witness for the amended C5: two slots, an 8-byte buffer and no explicit
lengths give every slot length 4. -/
theorem C5_witness :
    (isoCap2Sample.setIsochronous envEmpty 1
        (Sum.inr [1, 2, 3, 4, 5, 6, 7, 8]) none none 0 none).err = none ∧
    (get_iso_packet_list
        (isoCap2Sample.setIsochronous envEmpty 1
          (Sum.inr [1, 2, 3, 4, 5, 6, 7, 8]) none none 0 none).t.transfer).map
          IsoPacketDesc.length
      = List.replicate 2 4 := by
  have h := (C5_isochronous_configuration isoCap2Sample envEmpty 1 0 none none
    [1, 2, 3, 4, 5, 6, 7, 8] (by decide) (by decide) (by decide) (by decide)).2.2.2
    (by decide) (by decide)
  exact ⟨h.1, by rw [h.2]; decide⟩

end USB1
